import Mathlib

/-!
Shallow embedding of `fathom_connection.py` (repository `fathom_play`).

The module under verification is a dual-path client for the Fathom.ai API:
each logical operation (list teams, list meetings) can be performed through
a vendor SDK object or through a raw HTTP GET, and a composed operation
tries a preferred path and falls back to the other on failure.

Modelling conventions:
* The payload returned by either transport is opaque; it is a type
  parameter `α`.  The keyword-argument set passed to the meetings
  operations is likewise opaque, a type parameter `φ`.
* The behaviour of the external world is an oracle stored in the
  connection: the SDK client's two methods are `Except String α`
  (`Except.error e` models the call raising an exception whose
  stringification is `e`), and each REST call is
  `Except String (HttpResponse α)` (`Except.error e` models
  `requests.get` raising; `Except.ok r` models an HTTP response being
  received).
* `HttpResponse.json` models the result of calling `response.json()`:
  `Except.error e` is the parse exception raised on a non-JSON body.
* Every operation returns, next to its envelope, the list of transport
  calls it actually performed (`CallEvent`), so that statements such as
  "the other path is never invoked" and "at most two attempts" can be
  expressed.
-/

set_option autoImplicit false

variable {φ α : Type}

/-- Python truthiness of an `Optional[str]`: `None` and `""` are falsy. -/
def pyTruthy : Option String → Bool
  | none => false
  | some s => s != ""

/-- The `FathomResponse` dataclass: standardized response format for both
SDK and REST results.  `data` is `None`-able and opaque, `method` is
`"sdk"`, `"rest"` or the default `"unknown"`. -/
structure FathomResponse (α : Type) where
  success : Bool
  data : Option α
  error : Option String
  method : String
  status_code : Option Nat
  deriving DecidableEq, Repr

/-- Decidable equality for `Except`, needed to decide statements about
concrete HTTP responses. -/
instance exceptDecEq {ε β : Type} [DecidableEq ε] [DecidableEq β] :
    DecidableEq (Except ε β) := fun x y =>
  match x, y with
  | Except.ok a, Except.ok b =>
      if h : a = b then isTrue (by rw [h])
      else isFalse (fun he => h (Except.ok.inj he))
  | Except.error a, Except.error b =>
      if h : a = b then isTrue (by rw [h])
      else isFalse (fun he => h (Except.error.inj he))
  | Except.ok _, Except.error _ => isFalse (fun he => Except.noConfusion he)
  | Except.error _, Except.ok _ => isFalse (fun he => Except.noConfusion he)

/-- An HTTP response as seen by the `requests`-based REST methods:
status code, body text, and the outcome of calling `.json()` on it
(`Except.error e` models `.json()` raising exception `e`). -/
structure HttpResponse (α : Type) where
  status_code : Nat
  text : String
  json : Except String α
  deriving DecidableEq, Repr

/-- Oracle for the vendor SDK client object: the behaviour of its
`list_teams()` and `list_meetings(**filters)` methods, where
`Except.error e` models the method raising an exception stringifying
to `e`. -/
structure SdkClient (φ α : Type) where
  list_teams : Except String α
  list_meetings : φ → Except String α

/-- A transport call actually performed by an operation: one SDK method
invocation or one HTTP GET, carrying the parameters it was given. -/
inductive CallEvent (φ : Type) where
  | sdkTeams
  | sdkMeetings (filters : φ)
  | restTeams
  | restMeetings (params : φ)
  deriving DecidableEq, Repr

/-- The `FathomConnection` object after construction: API key, debug
flag, base URL and REST headers (immutable), the optional SDK client
handle (`none` when SDK construction failed), and the oracles for the
two REST endpoints. -/
structure FathomConnection (φ α : Type) where
  api_key : String
  debug : Bool
  base_url : String
  rest_headers : List (String × String)
  sdk_client : Option (SdkClient φ α)
  rest_teams : Except String (HttpResponse α)
  rest_meetings : φ → Except String (HttpResponse α)

/-- `FathomConnection._load_api_key`: return the parameter when truthy,
else the `FATHOM_API_KEY` value loaded from `~/.env` when truthy, else
raise `ValueError` (modelled as `Except.error`). -/
def FathomConnection.load_api_key (param : Option String) (env_val : Option String) :
    Except String String :=
  if pyTruthy param then Except.ok (param.getD "")
  else if pyTruthy env_val then Except.ok (env_val.getD "")
  else Except.error "FATHOM_API_KEY not found in ~/.env or provided as parameter"

/-- `FathomConnection._init_sdk_client`: `Fathom(...)` construction is an
oracle; on exception the handle becomes `None`. -/
def FathomConnection.init_sdk_client (outcome : Except String (SdkClient φ α)) :
    Option (SdkClient φ α) :=
  match outcome with
  | Except.ok client => some client
  | Except.error _ => none

/-- `FathomConnection.__init__`: load the API key (a `ValueError` there
aborts construction), then initialize the SDK client handle and the REST
headers.  `env_val` is the `FATHOM_API_KEY` entry found in `~/.env`
(`none` when absent); `sdk_init` and the two `rest_*` oracles describe
the external world. -/
def FathomConnection.construct (param env_val : Option String) (debug : Bool)
    (sdk_init : Except String (SdkClient φ α))
    (teams_oracle : Except String (HttpResponse α))
    (meetings_oracle : φ → Except String (HttpResponse α)) :
    Except String (FathomConnection φ α) :=
  match FathomConnection.load_api_key param env_val with
  | Except.error e => Except.error e
  | Except.ok key =>
      Except.ok
        { api_key := key
          debug := debug
          base_url := "https://api.fathom.ai/external/v1"
          rest_headers := [("x-api-key", key), ("Accept", "application/json")]
          sdk_client := FathomConnection.init_sdk_client sdk_init
          rest_teams := teams_oracle
          rest_meetings := meetings_oracle }

/-- `FathomConnection.list_teams_sdk`: fixed failure envelope when the
SDK handle is `None` (no call attempted); otherwise one SDK call, whose
result or exception is wrapped. -/
def FathomConnection.list_teams_sdk (c : FathomConnection φ α) :
    FathomResponse α × List (CallEvent φ) :=
  match c.sdk_client with
  | none =>
      (⟨false, none, some "SDK client not initialized", "sdk", none⟩, [])
  | some sdk =>
      match sdk.list_teams with
      | Except.ok r => (⟨true, some r, none, "sdk", none⟩, [CallEvent.sdkTeams])
      | Except.error e => (⟨false, none, some e, "sdk", none⟩, [CallEvent.sdkTeams])

/-- `FathomConnection.list_meetings_sdk`: as `list_teams_sdk`, with the
keyword arguments passed through verbatim to the SDK method. -/
def FathomConnection.list_meetings_sdk (c : FathomConnection φ α) (filters : φ) :
    FathomResponse α × List (CallEvent φ) :=
  match c.sdk_client with
  | none =>
      (⟨false, none, some "SDK client not initialized", "sdk", none⟩, [])
  | some sdk =>
      match sdk.list_meetings filters with
      | Except.ok r => (⟨true, some r, none, "sdk", none⟩, [CallEvent.sdkMeetings filters])
      | Except.error e => (⟨false, none, some e, "sdk", none⟩, [CallEvent.sdkMeetings filters])

/-- `FathomConnection.list_teams_rest`: one HTTP GET.  When a response
is received, `success` is `status_code == 200`, `data` is the parsed
JSON body on 200 (a parse exception is caught by the surrounding
`try`), `error` is the body text on non-200, and the status code is
recorded.  An exception from the transport or from `.json()` yields a
failure envelope with the stringified exception and no status code. -/
def FathomConnection.list_teams_rest (c : FathomConnection φ α) :
    FathomResponse α × List (CallEvent φ) :=
  match c.rest_teams with
  | Except.error e => (⟨false, none, some e, "rest", none⟩, [CallEvent.restTeams])
  | Except.ok resp =>
      if resp.status_code = 200 then
        match resp.json with
        | Except.ok d =>
            (⟨true, some d, none, "rest", some resp.status_code⟩, [CallEvent.restTeams])
        | Except.error e =>
            (⟨false, none, some e, "rest", none⟩, [CallEvent.restTeams])
      else
        (⟨false, none, some resp.text, "rest", some resp.status_code⟩, [CallEvent.restTeams])

/-- `FathomConnection.list_meetings_rest`: as `list_teams_rest`, with
the query parameters passed through verbatim. -/
def FathomConnection.list_meetings_rest (c : FathomConnection φ α) (params : φ) :
    FathomResponse α × List (CallEvent φ) :=
  match c.rest_meetings params with
  | Except.error e => (⟨false, none, some e, "rest", none⟩, [CallEvent.restMeetings params])
  | Except.ok resp =>
      if resp.status_code = 200 then
        match resp.json with
        | Except.ok d =>
            (⟨true, some d, none, "rest", some resp.status_code⟩, [CallEvent.restMeetings params])
        | Except.error e =>
            (⟨false, none, some e, "rest", none⟩, [CallEvent.restMeetings params])
      else
        (⟨false, none, some resp.text, "rest", some resp.status_code⟩,
          [CallEvent.restMeetings params])

/-- `FathomConnection.list_teams`: composed operation.  Try the
preferred path (REST when `prefer_rest`, SDK otherwise); return its
envelope unchanged on success, otherwise invoke the other path and
return its envelope whether or not it succeeded. -/
def FathomConnection.list_teams (c : FathomConnection φ α) (prefer_rest : Bool) :
    FathomResponse α × List (CallEvent φ) :=
  if prefer_rest then
    let result := c.list_teams_rest
    if result.1.success then result
    else (c.list_teams_sdk.1, result.2 ++ c.list_teams_sdk.2)
  else
    let result := c.list_teams_sdk
    if result.1.success then result
    else (c.list_teams_rest.1, result.2 ++ c.list_teams_rest.2)

/-- `FathomConnection.list_meetings`: composed operation with the same
keyword arguments passed to whichever paths are invoked. -/
def FathomConnection.list_meetings (c : FathomConnection φ α) (prefer_rest : Bool)
    (kwargs : φ) : FathomResponse α × List (CallEvent φ) :=
  if prefer_rest then
    let result := c.list_meetings_rest kwargs
    if result.1.success then result
    else ((c.list_meetings_sdk kwargs).1, result.2 ++ (c.list_meetings_sdk kwargs).2)
  else
    let result := c.list_meetings_sdk kwargs
    if result.1.success then result
    else ((c.list_meetings_rest kwargs).1, result.2 ++ (c.list_meetings_rest kwargs).2)

/-! ### Debug transport decorator

`DebugTransport` wraps an `httpx` transport; `handle_request` optionally
prints the request method, URL and headers, then delegates to the
wrapped transport.  Strings are manipulated at the code-point level, as
Python does: `pyLower` models `str.lower()`, `pySlice s n` models
`s[:n]`, and `strContains s pat` models `pat in s`. -/

/-- Code-point-wise lowercasing, modelling Python `str.lower()` on the
ASCII header names involved. -/
def pyLower (s : String) : String := String.mk (s.data.map Char.toLower)

/-- `s[:n]`: the first `n` code points of `s`. -/
def pySlice (s : String) (n : Nat) : String := String.mk (s.data.take n)

/-- Whether the first list is a prefix of the second, on code points. -/
def startsWithChars : List Char → List Char → Bool
  | [], _ => true
  | _ :: _, [] => false
  | p :: ps, c :: cs => p == c && startsWithChars ps cs

/-- Whether `pat` occurs contiguously within the second list. -/
def containsChars (pat : List Char) : List Char → Bool
  | [] => startsWithChars pat []
  | c :: cs => startsWithChars pat (c :: cs) || containsChars pat cs

/-- Python `pat in s` on strings. -/
def strContains (s pat : String) : Bool := containsChars pat.data s.data

/-- An outgoing HTTP request as seen by `DebugTransport.handle_request`:
method, URL and header mapping. -/
structure Request where
  method : String
  url : String
  headers : List (String × String)
  deriving DecidableEq, Repr

/-- The line printed for one header: names containing `auth` or `key`
(case-insensitively) have values longer than 20 characters truncated to
their first 20 characters plus `...`; everything else is printed
verbatim. -/
def headerLogLine (key value : String) : String :=
  if strContains (pyLower key) "auth" || strContains (pyLower key) "key" then
    if value.length > 20 then "  " ++ key ++ ": " ++ pySlice value 20 ++ "..."
    else "  " ++ key ++ ": " ++ value
  else
    "  " ++ key ++ ": " ++ value

/-- The `DebugTransport` decorator: a wrapped transport (a function from
requests to responses, of opaque response type `ρ`) and the debug flag
captured at construction. -/
structure DebugTransport (ρ : Type) where
  transport : Request → ρ
  debug : Bool

/-- `DebugTransport.handle_request`: when debugging, print the request
line and one line per header, then delegate the request unchanged to the
wrapped transport and return its response unchanged.  The second
component is the list of printed lines. -/
def DebugTransport.handle_request {ρ : Type} (t : DebugTransport ρ) (request : Request) :
    ρ × List String :=
  (t.transport request,
    if t.debug then
      ("DEBUG: " ++ request.method ++ " " ++ request.url) ::
        request.headers.map (fun kv => headerLogLine kv.1 kv.2)
    else [])

/-! ### Filter builders

`FathomFilters` builds parameter mappings.  A mapping is an association
list in insertion order, as a Python `dict` is.  The value
`FilterValue.timestamp t` stands for the ISO-8601 string
`datetime.fromtimestamp(t).isoformat() + "Z"`; `t` is in seconds on the
clock `datetime.now()` reads. -/

/-- The two members of `ListMeetingsCalendarInviteesDomainsType` used by
the filter builders. -/
inductive DomainsType where
  | one_or_more_external
  | only_internal
  deriving DecidableEq, Repr

/-- A value stored in a filter mapping: a plain string, a boolean, a
domains-type enum member, or an ISO-formatted timestamp (seconds). -/
inductive FilterValue where
  | str (s : String)
  | boolean (b : Bool)
  | domains (d : DomainsType)
  | timestamp (t : Int)
  deriving DecidableEq, Repr

/-- A filter mapping: a Python dict in insertion order. -/
abbrev FilterSet : Type := List (String × FilterValue)

/-- `FathomFilters.last_n_days`: `created_after` set to
`(datetime.now() - timedelta(days=days)).isoformat() + "Z"`.  `now` is
the current clock reading in seconds; `timedelta(days=d)` is exactly
`d * 86400` seconds. -/
def FathomFilters.last_n_days (now : Int) (days : Int) : FilterSet :=
  [("created_after", FilterValue.timestamp (now - days * 86400))]

/-- `FathomFilters.external_meetings`. -/
def FathomFilters.external_meetings : FilterSet :=
  [("calendar_invitees_domains_type", FilterValue.domains DomainsType.one_or_more_external)]

/-- `FathomFilters.internal_meetings`. -/
def FathomFilters.internal_meetings : FilterSet :=
  [("calendar_invitees_domains_type", FilterValue.domains DomainsType.only_internal)]

/-- `FathomFilters.with_details`. -/
def FathomFilters.with_details : FilterSet :=
  [("include_action_items", FilterValue.boolean true),
   ("include_crm_matches", FilterValue.boolean true),
   ("include_summary", FilterValue.boolean true),
   ("include_transcript", FilterValue.boolean true)]

/-- Python dict union `{**a, **b}`: keys of `a` in order with values
updated from `b` on collision, then the keys of `b` not in `a`. -/
def dictUnion (a b : FilterSet) : FilterSet :=
  (a.map (fun kv =>
    match b.lookup kv.1 with
    | some v => (kv.1, v)
    | none => kv)) ++
    b.filter (fun kv => (a.lookup kv.1).isNone)

/-- Reading a filter value back as the timestamp it renders. -/
def parseTimestamp : FilterValue → Option Int
  | FilterValue.timestamp t => some t
  | _ => none

/-! ### Concrete instances used to evaluate the definitions -/

/-- The spec's envelope invariant, as an executable predicate: a
successful envelope carries no error, a failed one carries no data. -/
def envelopeInv {α : Type} (r : FathomResponse α) : Bool :=
  if r.success then r.error.isNone else r.data.isNone

/-- An SDK client whose two methods both raise. -/
def sdkClientErr : SdkClient Unit Nat :=
  ⟨Except.error "sdk teams boom", fun _ => Except.error "sdk meetings boom"⟩

/-- A connection whose SDK client is present but raising, and whose REST
transport raises too. -/
def connErr : FathomConnection Unit Nat :=
  { api_key := "k"
    debug := false
    base_url := "https://api.fathom.ai/external/v1"
    rest_headers := [("x-api-key", "k"), ("Accept", "application/json")]
    sdk_client := some sdkClientErr
    rest_teams := Except.error "rest teams boom"
    rest_meetings := fun _ => Except.error "rest meetings boom" }

/-- A connection whose SDK construction failed and whose REST endpoint
answers 500. -/
def connNoSdk : FathomConnection Unit Nat :=
  { api_key := "k"
    debug := false
    base_url := "https://api.fathom.ai/external/v1"
    rest_headers := [("x-api-key", "k"), ("Accept", "application/json")]
    sdk_client := none
    rest_teams := Except.ok ⟨500, "Internal Server Error", Except.error "Expecting value"⟩
    rest_meetings := fun _ =>
      Except.ok ⟨500, "Internal Server Error", Except.error "Expecting value"⟩ }

/-- A connection whose REST endpoint answers 200 with a body that is not
valid JSON, so `response.json()` raises. -/
def connBadJson : FathomConnection Unit Nat :=
  { api_key := "k"
    debug := false
    base_url := "https://api.fathom.ai/external/v1"
    rest_headers := [("x-api-key", "k"), ("Accept", "application/json")]
    sdk_client := none
    rest_teams :=
      Except.ok ⟨200, "not json", Except.error "Expecting value: line 1 column 1 (char 0)"⟩
    rest_meetings := fun _ =>
      Except.ok ⟨200, "not json", Except.error "Expecting value: line 1 column 1 (char 0)"⟩ }

/-- A connection whose SDK path succeeds. -/
def connSdkOk : FathomConnection Unit Nat :=
  { api_key := "k"
    debug := false
    base_url := "https://api.fathom.ai/external/v1"
    rest_headers := [("x-api-key", "k"), ("Accept", "application/json")]
    sdk_client := some ⟨Except.ok 7, fun _ => Except.ok 8⟩
    rest_teams := Except.ok ⟨200, "[]", Except.ok 9⟩
    rest_meetings := fun _ => Except.ok ⟨200, "[]", Except.ok 10⟩ }

/-- A debug-enabled transport whose wrapped transport returns `0`. -/
def debugTransportEx : DebugTransport Nat := ⟨fun _ => 0, true⟩

/-- A request carrying a long secret header and a short plain header. -/
def requestEx : Request :=
  ⟨"GET", "https://api.fathom.ai/external/v1/teams",
    [("x-api-key", "abcdefghijklmnopqrstuvwxyz"), ("Accept", "application/json")]⟩

/-! ### Helper lemmas -/

theorem teams_sdk_env_inv {φ α : Type} (c : FathomConnection φ α) :
    envelopeInv (c.list_teams_sdk).1 = true := by
  unfold FathomConnection.list_teams_sdk
  cases hc : c.sdk_client with
  | none => rfl
  | some sdk =>
      cases hs : sdk.list_teams with
      | ok r => simp [hs, envelopeInv]
      | error e => simp [hs, envelopeInv]

theorem meetings_sdk_env_inv {φ α : Type} (c : FathomConnection φ α) (f : φ) :
    envelopeInv (c.list_meetings_sdk f).1 = true := by
  unfold FathomConnection.list_meetings_sdk
  cases hc : c.sdk_client with
  | none => rfl
  | some sdk =>
      cases hs : sdk.list_meetings f with
      | ok r => simp [hs, envelopeInv]
      | error e => simp [hs, envelopeInv]

theorem teams_rest_env_inv {φ α : Type} (c : FathomConnection φ α) :
    envelopeInv (c.list_teams_rest).1 = true := by
  unfold FathomConnection.list_teams_rest
  cases hc : c.rest_teams with
  | error e => rfl
  | ok resp =>
      by_cases h200 : resp.status_code = 200
      · cases hj : resp.json with
        | ok d => simp [h200, hj, envelopeInv]
        | error e => simp [h200, hj, envelopeInv]
      · simp [h200, envelopeInv]

theorem meetings_rest_env_inv {φ α : Type} (c : FathomConnection φ α) (f : φ) :
    envelopeInv (c.list_meetings_rest f).1 = true := by
  unfold FathomConnection.list_meetings_rest
  cases hc : c.rest_meetings f with
  | error e => rfl
  | ok resp =>
      by_cases h200 : resp.status_code = 200
      · cases hj : resp.json with
        | ok d => simp [h200, hj, envelopeInv]
        | error e => simp [h200, hj, envelopeInv]
      · simp [h200, envelopeInv]

theorem teams_composed_cases {φ α : Type} (c : FathomConnection φ α) (pr : Bool) :
    (c.list_teams pr).1 = (c.list_teams_sdk).1 ∨
      (c.list_teams pr).1 = (c.list_teams_rest).1 := by
  cases pr with
  | false =>
      cases h : (c.list_teams_sdk).1.success with
      | true => exact Or.inl (by simp [FathomConnection.list_teams, h])
      | false => exact Or.inr (by simp [FathomConnection.list_teams, h])
  | true =>
      cases h : (c.list_teams_rest).1.success with
      | true => exact Or.inr (by simp [FathomConnection.list_teams, h])
      | false => exact Or.inl (by simp [FathomConnection.list_teams, h])

theorem meetings_composed_cases {φ α : Type} (c : FathomConnection φ α) (pr : Bool) (f : φ) :
    (c.list_meetings pr f).1 = (c.list_meetings_sdk f).1 ∨
      (c.list_meetings pr f).1 = (c.list_meetings_rest f).1 := by
  cases pr with
  | false =>
      cases h : (c.list_meetings_sdk f).1.success with
      | true => exact Or.inl (by simp [FathomConnection.list_meetings, h])
      | false => exact Or.inr (by simp [FathomConnection.list_meetings, h])
  | true =>
      cases h : (c.list_meetings_rest f).1.success with
      | true => exact Or.inr (by simp [FathomConnection.list_meetings, h])
      | false => exact Or.inl (by simp [FathomConnection.list_meetings, h])

theorem teams_sdk_calls_le_one {φ α : Type} (c : FathomConnection φ α) :
    (c.list_teams_sdk).2.length ≤ 1 := by
  unfold FathomConnection.list_teams_sdk
  cases hc : c.sdk_client with
  | none => simp
  | some sdk => cases hs : sdk.list_teams <;> simp [hs]

theorem meetings_sdk_calls_le_one {φ α : Type} (c : FathomConnection φ α) (f : φ) :
    (c.list_meetings_sdk f).2.length ≤ 1 := by
  unfold FathomConnection.list_meetings_sdk
  cases hc : c.sdk_client with
  | none => simp
  | some sdk => cases hs : sdk.list_meetings f <;> simp [hs]

theorem teams_rest_calls_le_one {φ α : Type} (c : FathomConnection φ α) :
    (c.list_teams_rest).2.length ≤ 1 := by
  unfold FathomConnection.list_teams_rest
  cases hc : c.rest_teams with
  | error e => simp
  | ok resp =>
      by_cases h200 : resp.status_code = 200
      · cases hj : resp.json <;> simp [h200, hj]
      · simp [h200]

theorem meetings_rest_calls_le_one {φ α : Type} (c : FathomConnection φ α) (f : φ) :
    (c.list_meetings_rest f).2.length ≤ 1 := by
  unfold FathomConnection.list_meetings_rest
  cases hc : c.rest_meetings f with
  | error e => simp
  | ok resp =>
      by_cases h200 : resp.status_code = 200
      · cases hj : resp.json <;> simp [h200, hj]
      · simp [h200]

/-! ### The claims -/

/-- Claim C2: every envelope returned by any client operation (the four
primitive operations and the two composed ones) satisfies the invariant
that success implies no error and failure implies no data. -/
theorem claim_C2_envelope_invariant {φ α : Type} (c : FathomConnection φ α) (f : φ)
    (pr : Bool) :
    envelopeInv (c.list_teams_sdk).1 = true ∧
    envelopeInv (c.list_meetings_sdk f).1 = true ∧
    envelopeInv (c.list_teams_rest).1 = true ∧
    envelopeInv (c.list_meetings_rest f).1 = true ∧
    envelopeInv (c.list_teams pr).1 = true ∧
    envelopeInv (c.list_meetings pr f).1 = true := by
  refine ⟨teams_sdk_env_inv c, meetings_sdk_env_inv c f, teams_rest_env_inv c,
    meetings_rest_env_inv c f, ?_, ?_⟩
  · rcases teams_composed_cases c pr with h | h
    · rw [h]; exact teams_sdk_env_inv c
    · rw [h]; exact teams_rest_env_inv c
  · rcases meetings_composed_cases c pr f with h | h
    · rw [h]; exact meetings_sdk_env_inv c f
    · rw [h]; exact meetings_rest_env_inv c f

/-- Claim C5: constructing a connection with no `api_key` parameter and
no `FATHOM_API_KEY` entry in the environment file fails with the
configuration `ValueError`, whatever the transports would have done; no
operation (hence no network call) is reachable from the failed
construction. -/
theorem claim_C5_missing_key_fatal {φ α : Type} (debug : Bool)
    (sdk_init : Except String (SdkClient φ α))
    (teams_oracle : Except String (HttpResponse α))
    (meetings_oracle : φ → Except String (HttpResponse α)) :
    FathomConnection.construct none none debug sdk_init teams_oracle meetings_oracle =
      Except.error "FATHOM_API_KEY not found in ~/.env or provided as parameter" := rfl

/-- Claim C7: `last_n_days 7` maps `created_after` to a timestamp within
one second of the current time minus 7 days (in fact exactly equal to
it: `timedelta(days=7)` is exactly `7 * 86400` seconds). -/
theorem claim_C7_last_seven_days (now : Int) :
    ∃ t : Int,
      Option.bind ((FathomFilters.last_n_days now 7).lookup "created_after") parseTimestamp
          = some t ∧
        (t - (now - 7 * 86400)).natAbs ≤ 1 := by
  refine ⟨now - 7 * 86400, ?_, ?_⟩
  · simp [FathomFilters.last_n_days, parseTimestamp, List.lookup]
  · simp

/-- Claim C8: `DebugTransport.handle_request` hands the request to the
wrapped transport as-is and returns the wrapped transport's response
as-is, whether or not debug is enabled; the decorator only produces log
lines on the side. -/
theorem claim_C8_decorator_is_observational {ρ : Type} (t : DebugTransport ρ)
    (request : Request) :
    (t.handle_request request).1 = t.transport request := rfl

/-- Claim C9: `internal_meetings` and `external_meetings` each carry
exactly the single key `calendar_invitees_domains_type`, so merging them
by dict union in either order yields that key once, with the later
operand's value. -/
theorem claim_C9_single_key_merge :
    FathomFilters.external_meetings.map Prod.fst = ["calendar_invitees_domains_type"] ∧
    FathomFilters.internal_meetings.map Prod.fst = ["calendar_invitees_domains_type"] ∧
    (dictUnion FathomFilters.external_meetings FathomFilters.internal_meetings).map Prod.fst
        = ["calendar_invitees_domains_type"] ∧
    (dictUnion FathomFilters.external_meetings FathomFilters.internal_meetings).lookup
        "calendar_invitees_domains_type"
        = some (FilterValue.domains DomainsType.only_internal) ∧
    (dictUnion FathomFilters.internal_meetings FathomFilters.external_meetings).map Prod.fst
        = ["calendar_invitees_domains_type"] ∧
    (dictUnion FathomFilters.internal_meetings FathomFilters.external_meetings).lookup
        "calendar_invitees_domains_type"
        = some (FilterValue.domains DomainsType.one_or_more_external) := by
  refine ⟨rfl, rfl, ?_, ?_, ?_, ?_⟩ <;> decide

/-- Claim C1: the composed operations invoke the preferred path first
(REST when `prefer_rest`, SDK otherwise); on success its envelope is
returned unchanged and the other path performs no call; otherwise the
other path is invoked once with the same parameters and its envelope is
returned as-is — at most two transport calls per composed call. -/
theorem claim_C1_fallback_composition {φ α : Type} (c : FathomConnection φ α) (f : φ)
    (pr : Bool) :
    ((if pr then c.list_teams_rest else c.list_teams_sdk).1.success = true →
        c.list_teams pr = if pr then c.list_teams_rest else c.list_teams_sdk) ∧
    ((if pr then c.list_teams_rest else c.list_teams_sdk).1.success = false →
        c.list_teams pr =
          ((if pr then c.list_teams_sdk else c.list_teams_rest).1,
            (if pr then c.list_teams_rest else c.list_teams_sdk).2 ++
              (if pr then c.list_teams_sdk else c.list_teams_rest).2)) ∧
    (c.list_teams pr).2.length ≤ 2 ∧
    ((if pr then c.list_meetings_rest f else c.list_meetings_sdk f).1.success = true →
        c.list_meetings pr f =
          if pr then c.list_meetings_rest f else c.list_meetings_sdk f) ∧
    ((if pr then c.list_meetings_rest f else c.list_meetings_sdk f).1.success = false →
        c.list_meetings pr f =
          ((if pr then c.list_meetings_sdk f else c.list_meetings_rest f).1,
            (if pr then c.list_meetings_rest f else c.list_meetings_sdk f).2 ++
              (if pr then c.list_meetings_sdk f else c.list_meetings_rest f).2)) ∧
    (c.list_meetings pr f).2.length ≤ 2 := by
  have t1 := teams_sdk_calls_le_one c
  have t2 := teams_rest_calls_le_one c
  have m1 := meetings_sdk_calls_le_one c f
  have m2 := meetings_rest_calls_le_one c f
  cases pr with
  | false =>
      refine ⟨?_, ?_, ?_, ?_, ?_, ?_⟩
      · intro h; simp at h; simp [FathomConnection.list_teams, h]
      · intro h; simp at h; simp [FathomConnection.list_teams, h]
      · cases h : (c.list_teams_sdk).1.success with
        | true => simp [FathomConnection.list_teams, h]; omega
        | false =>
            simp [FathomConnection.list_teams, h, List.length_append]; omega
      · intro h; simp at h; simp [FathomConnection.list_meetings, h]
      · intro h; simp at h; simp [FathomConnection.list_meetings, h]
      · cases h : (c.list_meetings_sdk f).1.success with
        | true => simp [FathomConnection.list_meetings, h]; omega
        | false =>
            simp [FathomConnection.list_meetings, h, List.length_append]; omega
  | true =>
      refine ⟨?_, ?_, ?_, ?_, ?_, ?_⟩
      · intro h; simp at h; simp [FathomConnection.list_teams, h]
      · intro h; simp at h; simp [FathomConnection.list_teams, h]
      · cases h : (c.list_teams_rest).1.success with
        | true => simp [FathomConnection.list_teams, h]; omega
        | false =>
            simp [FathomConnection.list_teams, h, List.length_append]; omega
      · intro h; simp at h; simp [FathomConnection.list_meetings, h]
      · intro h; simp at h; simp [FathomConnection.list_meetings, h]
      · cases h : (c.list_meetings_rest f).1.success with
        | true => simp [FathomConnection.list_meetings, h]; omega
        | false =>
            simp [FathomConnection.list_meetings, h, List.length_append]; omega

/-- Witness for claim C1 at concrete connections: a successful SDK path
short-circuits, a failing preferred path falls back to the other. -/
theorem claim_C1_fallback_composition_witness :
    connSdkOk.list_teams false = connSdkOk.list_teams_sdk ∧
    connErr.list_teams false =
      ((connErr.list_teams_rest).1,
        (connErr.list_teams_sdk).2 ++ (connErr.list_teams_rest).2) := by
  constructor
  · exact (claim_C1_fallback_composition connSdkOk () false).1 (by decide)
  · exact (claim_C1_fallback_composition connErr () false).2.1 (by decide)

/-- Claim C3: for every primitive operation, an exception from the
transport or SDK call is converted to a failed envelope carrying the
stringified exception and the path tag, after exactly one call
(no retry, no propagation). -/
theorem claim_C3_exception_conversion {φ α : Type} (c : FathomConnection φ α)
    (sdk : SdkClient φ α) (f : φ) (e1 e2 e3 e4 : String)
    (hc : c.sdk_client = some sdk)
    (h1 : sdk.list_teams = Except.error e1)
    (h2 : sdk.list_meetings f = Except.error e2)
    (h3 : c.rest_teams = Except.error e3)
    (h4 : c.rest_meetings f = Except.error e4) :
    c.list_teams_sdk = (⟨false, none, some e1, "sdk", none⟩, [CallEvent.sdkTeams]) ∧
    c.list_meetings_sdk f
        = (⟨false, none, some e2, "sdk", none⟩, [CallEvent.sdkMeetings f]) ∧
    c.list_teams_rest = (⟨false, none, some e3, "rest", none⟩, [CallEvent.restTeams]) ∧
    c.list_meetings_rest f
        = (⟨false, none, some e4, "rest", none⟩, [CallEvent.restMeetings f]) := by
  refine ⟨?_, ?_, ?_, ?_⟩
  · simp [FathomConnection.list_teams_sdk, hc, h1]
  · simp [FathomConnection.list_meetings_sdk, hc, h2]
  · simp [FathomConnection.list_teams_rest, h3]
  · simp [FathomConnection.list_meetings_rest, h4]

/-- Witness for claim C3 at a connection whose every transport raises. -/
theorem claim_C3_exception_conversion_witness :
    connErr.list_teams_sdk
        = (⟨false, none, some "sdk teams boom", "sdk", none⟩, [CallEvent.sdkTeams]) ∧
    connErr.list_meetings_sdk ()
        = (⟨false, none, some "sdk meetings boom", "sdk", none⟩, [CallEvent.sdkMeetings ()]) ∧
    connErr.list_teams_rest
        = (⟨false, none, some "rest teams boom", "rest", none⟩, [CallEvent.restTeams]) ∧
    connErr.list_meetings_rest ()
        = (⟨false, none, some "rest meetings boom", "rest", none⟩, [CallEvent.restMeetings ()]) :=
  claim_C3_exception_conversion connErr sdkClientErr () "sdk teams boom" "sdk meetings boom"
    "rest teams boom" "rest meetings boom" rfl rfl rfl rfl rfl

/-- Claim C4 (amended): when the SDK handle is `None`, both SDK
primitives return the fixed not-initialized envelope without performing
any transport call, and the composed operations invoke only the REST
transport.  With `prefer_rest = false` the composed result is exactly
the REST envelope; with `prefer_rest = true` the REST envelope is
returned when it succeeds, but on REST failure the fixed
not-initialized SDK envelope is returned instead of the REST one. -/
theorem claim_C4_sdk_unavailable {φ α : Type} (c : FathomConnection φ α) (f : φ)
    (h : c.sdk_client = none) :
    c.list_teams_sdk = (⟨false, none, some "SDK client not initialized", "sdk", none⟩, []) ∧
    c.list_meetings_sdk f
        = (⟨false, none, some "SDK client not initialized", "sdk", none⟩, []) ∧
    c.list_teams false = c.list_teams_rest ∧
    c.list_meetings false f = c.list_meetings_rest f ∧
    ((c.list_teams_rest).1.success = true → c.list_teams true = c.list_teams_rest) ∧
    ((c.list_teams_rest).1.success = false →
        c.list_teams true =
          (⟨false, none, some "SDK client not initialized", "sdk", none⟩,
            (c.list_teams_rest).2)) ∧
    ((c.list_meetings_rest f).1.success = true →
        c.list_meetings true f = c.list_meetings_rest f) ∧
    ((c.list_meetings_rest f).1.success = false →
        c.list_meetings true f =
          (⟨false, none, some "SDK client not initialized", "sdk", none⟩,
            (c.list_meetings_rest f).2)) := by
  refine ⟨?_, ?_, ?_, ?_, ?_, ?_, ?_, ?_⟩
  · simp [FathomConnection.list_teams_sdk, h]
  · simp [FathomConnection.list_meetings_sdk, h]
  · simp [FathomConnection.list_teams, FathomConnection.list_teams_sdk, h]
  · simp [FathomConnection.list_meetings, FathomConnection.list_meetings_sdk, h]
  · intro hs; simp [FathomConnection.list_teams, hs]
  · intro hs; simp [FathomConnection.list_teams, FathomConnection.list_teams_sdk, h, hs]
  · intro hs; simp [FathomConnection.list_meetings, hs]
  · intro hs
    simp [FathomConnection.list_meetings, FathomConnection.list_meetings_sdk, h, hs]

/-- Counterexample to claim C4 as stated: with the SDK handle `None`,
a REST endpoint answering 500, and `prefer_rest = true`, the composed
operation does not reduce to the REST path's result — it returns the
fixed not-initialized SDK envelope, not the REST envelope. -/
theorem claim_C4_counterexample :
    connNoSdk.sdk_client = none ∧
    (connNoSdk.list_teams true).1 ≠ (connNoSdk.list_teams_rest).1 ∧
    (connNoSdk.list_teams true).1
        = ⟨false, none, some "SDK client not initialized", "sdk", none⟩ ∧
    (connNoSdk.list_teams_rest).1
        = ⟨false, none, some "Internal Server Error", "rest", some 500⟩ :=
  ⟨rfl, by decide, by decide, by decide⟩

/-- Witness for the amended claim C4 at a concrete connection with no
SDK handle. -/
theorem claim_C4_sdk_unavailable_witness :
    connNoSdk.list_teams_sdk
        = (⟨false, none, some "SDK client not initialized", "sdk", none⟩, []) ∧
    connNoSdk.list_teams false = connNoSdk.list_teams_rest := by
  have h := claim_C4_sdk_unavailable connNoSdk () rfl
  exact ⟨h.1, h.2.2.1⟩

/-- Claim C6: with debug enabled, every header of the request is logged;
a header whose lower-cased name contains `auth` or `key` and whose value
exceeds 20 characters is logged as its first 20 characters followed by
`...`, while a value of at most 20 characters, or a header whose name
contains neither substring, is logged unmodified. -/
theorem claim_C6_header_redaction {ρ : Type} (t : DebugTransport ρ) (request : Request)
    (k v : String) (hdbg : t.debug = true) (hmem : (k, v) ∈ request.headers) :
    headerLogLine k v ∈ (t.handle_request request).2 ∧
    ((strContains (pyLower k) "auth" || strContains (pyLower k) "key") = true →
      (20 < v.length → headerLogLine k v = "  " ++ k ++ ": " ++ pySlice v 20 ++ "...") ∧
      (v.length ≤ 20 → headerLogLine k v = "  " ++ k ++ ": " ++ v)) ∧
    ((strContains (pyLower k) "auth" || strContains (pyLower k) "key") = false →
      headerLogLine k v = "  " ++ k ++ ": " ++ v) := by
  refine ⟨?_, ?_, ?_⟩
  · have hlog : (t.handle_request request).2 =
        ("DEBUG: " ++ request.method ++ " " ++ request.url) ::
          request.headers.map (fun kv => headerLogLine kv.1 kv.2) := by
      simp [DebugTransport.handle_request, hdbg]
    rw [hlog]
    exact List.mem_cons_of_mem _ (List.mem_map_of_mem _ hmem)
  · intro hk
    constructor
    · intro hv; simp [headerLogLine, hk, hv]
    · intro hv
      have hn : ¬ (20 < v.length) := Nat.not_lt.mpr hv
      simp [headerLogLine, hk, hn]
  · intro hk; simp [headerLogLine, hk]

/-- Witness for claim C6: the secret header of `requestEx` is truncated
to 20 characters plus an ellipsis, the short plain header is logged
verbatim, and the truncated line appears in the log. -/
theorem claim_C6_header_redaction_witness :
    headerLogLine "x-api-key" "abcdefghijklmnopqrstuvwxyz"
        = "  x-api-key: abcdefghijklmnopqrst..." ∧
    headerLogLine "Accept" "application/json" = "  Accept: application/json" ∧
    headerLogLine "x-api-key" "abcdefghijklmnopqrstuvwxyz"
        ∈ (debugTransportEx.handle_request requestEx).2 := by
  have h1 := claim_C6_header_redaction debugTransportEx requestEx "x-api-key"
    "abcdefghijklmnopqrstuvwxyz" rfl (by decide)
  have h2 := claim_C6_header_redaction debugTransportEx requestEx "Accept"
    "application/json" rfl (by decide)
  refine ⟨?_, ?_, h1.1⟩
  · exact ((h1.2.1 (by decide)).1 (by decide)).trans (by decide)
  · exact (h2.2.2 (by decide)).trans (by decide)

/-- Claim C10 (amended): whenever an HTTP response is received by a REST
primitive, the envelope succeeds exactly when the status code is 200 and
the body parses as JSON.  Any non-200 status — including 201 or 204 —
yields a failed envelope with the body text as error, no data, and the
status code recorded; a 200 response whose body fails to parse yields a
failed envelope carrying the parse exception and no status code. -/
theorem claim_C10_rest_status_dispatch {φ α : Type} (c : FathomConnection φ α) (f : φ)
    (tr mr : HttpResponse α)
    (ht : c.rest_teams = Except.ok tr) (hm : c.rest_meetings f = Except.ok mr) :
    ((c.list_teams_rest).1.success = true ↔
        tr.status_code = 200 ∧ ∃ d, tr.json = Except.ok d) ∧
    (tr.status_code ≠ 200 →
        (c.list_teams_rest).1
          = ⟨false, none, some tr.text, "rest", some tr.status_code⟩) ∧
    (∀ e, tr.status_code = 200 → tr.json = Except.error e →
        (c.list_teams_rest).1 = ⟨false, none, some e, "rest", none⟩) ∧
    ((c.list_meetings_rest f).1.success = true ↔
        mr.status_code = 200 ∧ ∃ d, mr.json = Except.ok d) ∧
    (mr.status_code ≠ 200 →
        (c.list_meetings_rest f).1
          = ⟨false, none, some mr.text, "rest", some mr.status_code⟩) ∧
    (∀ e, mr.status_code = 200 → mr.json = Except.error e →
        (c.list_meetings_rest f).1 = ⟨false, none, some e, "rest", none⟩) := by
  refine ⟨?_, ?_, ?_, ?_, ?_, ?_⟩
  · unfold FathomConnection.list_teams_rest
    rw [ht]
    by_cases h200 : tr.status_code = 200
    · cases hj : tr.json with
      | ok d => simp [h200, hj]
      | error e => simp [h200, hj]
    · simp [h200]
  · intro hne
    unfold FathomConnection.list_teams_rest
    rw [ht]
    simp [hne]
  · intro e h200 hj
    unfold FathomConnection.list_teams_rest
    rw [ht]
    simp [h200, hj]
  · unfold FathomConnection.list_meetings_rest
    rw [hm]
    by_cases h200 : mr.status_code = 200
    · cases hj : mr.json with
      | ok d => simp [h200, hj]
      | error e => simp [h200, hj]
    · simp [h200]
  · intro hne
    unfold FathomConnection.list_meetings_rest
    rw [hm]
    simp [hne]
  · intro e h200 hj
    unfold FathomConnection.list_meetings_rest
    rw [hm]
    simp [h200, hj]

/-- Counterexample to claim C10 as stated: a received response with
status code exactly 200 whose body is not valid JSON produces
`success = false`, so success is not equivalent to the status code
being 200. -/
theorem claim_C10_counterexample :
    connBadJson.rest_teams =
      Except.ok ⟨200, "not json", Except.error "Expecting value: line 1 column 1 (char 0)"⟩ ∧
    (connBadJson.list_teams_rest).1.success = false :=
  ⟨rfl, rfl⟩

/-- Witness for the amended claim C10 at the concrete connection whose
200 response carries a non-JSON body. -/
theorem claim_C10_rest_status_dispatch_witness :
    (connBadJson.list_teams_rest).1
        = ⟨false, none, some "Expecting value: line 1 column 1 (char 0)", "rest", none⟩ := by
  have h := claim_C10_rest_status_dispatch connBadJson ()
    ⟨200, "not json", Except.error "Expecting value: line 1 column 1 (char 0)"⟩
    ⟨200, "not json", Except.error "Expecting value: line 1 column 1 (char 0)"⟩ rfl rfl
  exact h.2.2.1 "Expecting value: line 1 column 1 (char 0)" rfl rfl
